import Mathlib

/-!
Verification of the hardware breakpoint/watchpoint subsystem of probe-rs
(DWT driver in `src/probe-rs/src/architecture/arm/component/dwt.rs` and the
two gdb-server breakpoint adapters).

The embedding is shallow: register values are natural numbers below 2^32,
bitfield getters/setters follow the `memory_mapped_bitfield_register!`
semantics (a field at bits `lo+w-1 .. lo` of a 32-bit value), and each
driver operation is a pure function from the loaded register values to the
final register values, the ordered list of hardware register stores it
performs, and its `Result`.  Register loads and stores are assumed to
succeed (the transport-failure path is handled at the adapter layer, where
the collaborator results are explicit parameters).  All registers belong to
the single comparator unit addressed by the call; the `unit` index only
selects which instance of `Comp`/`Mask`/`Function` is meant, so the state is
the addressed unit's three registers.
-/

/-- Field extraction for a bitfield at bits `lo+w-1 .. lo`:
`(v >> lo) mod 2^w`, written arithmetically. -/
def bfGet (v lo w : Nat) : Nat := (v / 2 ^ lo) % 2 ^ w

/-- Field update for a bitfield at bits `lo+w-1 .. lo`: the bits above the
field and below the field are preserved, the field is replaced by
`x mod 2^w` (the `bitfield` crate masks the stored value to the field
width). -/
def bfSet (v lo w x : Nat) : Nat :=
  (v / 2 ^ (lo + w)) * 2 ^ (lo + w) + (x % 2 ^ w) * 2 ^ lo + v % 2 ^ lo

/-- DWT/COMP field `comp`, bits 31..0 (the whole register). -/
def get_comp (v : Nat) : Nat := bfGet v 0 32

/-- DWT/COMP `set_comp`, bits 31..0. -/
def set_comp (v x : Nat) : Nat := bfSet v 0 32 x

/-- DWT/MASK field `mask`, bits 4..0. -/
def get_mask (v : Nat) : Nat := bfGet v 0 5

/-- DWT/MASK `set_mask`, bits 4..0. -/
def set_mask (v x : Nat) : Nat := bfSet v 0 5 x

/-- DWT/FUNCTION field `datavsize`, bits 11..10. -/
def get_datavsize (v : Nat) : Nat := bfGet v 10 2

/-- DWT/FUNCTION `set_datavsize`, bits 11..10. -/
def set_datavsize (v x : Nat) : Nat := bfSet v 10 2 x

/-- DWT/FUNCTION field `datavaddr0`, bits 15..12. -/
def get_datavaddr0 (v : Nat) : Nat := bfGet v 12 4

/-- DWT/FUNCTION `set_datavaddr0`, bits 15..12. -/
def set_datavaddr0 (v x : Nat) : Nat := bfSet v 12 4 x

/-- DWT/FUNCTION field `datavaddr1`, bits 19..16. -/
def get_datavaddr1 (v : Nat) : Nat := bfGet v 16 4

/-- DWT/FUNCTION `set_datavaddr1`, bits 19..16. -/
def set_datavaddr1 (v x : Nat) : Nat := bfSet v 16 4 x

/-- DWT/FUNCTION field `datavmatch`, bit 8 (boolean). -/
def get_datavmatch (v : Nat) : Bool := bfGet v 8 1 == 1

/-- DWT/FUNCTION `set_datavmatch`, bit 8 (boolean). -/
def set_datavmatch (v : Nat) (b : Bool) : Nat := bfSet v 8 1 (cond b 1 0)

/-- DWT/FUNCTION field `cycmatch`, bit 7 (boolean). -/
def get_cycmatch (v : Nat) : Bool := bfGet v 7 1 == 1

/-- DWT/FUNCTION `set_cycmatch`, bit 7 (boolean). -/
def set_cycmatch (v : Nat) (b : Bool) : Nat := bfSet v 7 1 (cond b 1 0)

/-- DWT/FUNCTION field `function`, bits 3..0. -/
def get_function (v : Nat) : Nat := bfGet v 0 4

/-- DWT/FUNCTION `set_function`, bits 3..0. -/
def set_function (v x : Nat) : Nat := bfSet v 0 4 x

/-- `WatchKind` from `dwt.rs`: the kind of memory access a watchpoint
triggers on. -/
inductive WatchKind : Type
  | Write
  | Read
  | ReadWrite
deriving DecidableEq, Repr

/-- `impl From<WatchKind> for u32` in `dwt.rs`:
Write = 0b0110, Read = 0b0101, ReadWrite = 0b0111. -/
def watchKindToU32 : WatchKind → Nat
  | .Write => 0b0110
  | .Read => 0b0101
  | .ReadWrite => 0b0111

/-- The `ArmError` variants constructed by the DWT watchpoint code:
`UnsupportedTransferWidth(length)` for a zero/non-power-of-two length,
`OutOfBounds` for a watched range wider than the mask allows, and
`MemoryNotAligned { address, alignment }` for an unaligned address. -/
inductive ArmError : Type
  | UnsupportedTransferWidth (length : Nat)
  | OutOfBounds
  | MemoryNotAligned (address : Nat) (alignment : Nat)
deriving DecidableEq, Repr

/-- The registers of the addressed DWT comparator unit, as loaded from /
stored to hardware. -/
structure DwtRegs : Type where
  comp : Nat
  mask : Nat
  function : Nat
deriving DecidableEq, Repr

/-- One hardware register store performed by the driver (a
`store_unit` call), carrying the 32-bit value written. -/
inductive DwtWrite : Type
  | comp (value : Nat)
  | mask (value : Nat)
  | function (value : Nat)
deriving DecidableEq, Repr

/-- Outcome of a driver operation: the final register state of the unit,
the ordered list of register stores performed, and the returned
`Result<(), ArmError>`. -/
structure DwtStep : Type where
  regs : DwtRegs
  writes : List DwtWrite
  result : Except ArmError Unit
deriving Repr

/-- Fuelled count of trailing zero bits: one step per inspected bit, so
with fuel `w` this is exactly the `trailing_zeros` of a `w`-bit machine
integer (`trailing_zeros(0) = w`). -/
def tz_fuel : Nat → Nat → Nat
  | _, 0 => 0
  | x, fuel + 1 => if x % 2 = 0 then tz_fuel (x / 2) fuel + 1 else 0

/-- `u32::trailing_zeros`. -/
def u32_trailing_zeros (x : Nat) : Nat := tz_fuel (x % 2 ^ 32) 32

/-- `usize::trailing_zeros` on the 64-bit targets probe-rs runs on. -/
def usize_trailing_zeros (x : Nat) : Nat := tz_fuel (x % 2 ^ 64) 64

/-- `usize::is_power_of_two` on a 64-bit target: true exactly when the
value is `2^m` for some `m < 64`. -/
def is_power_of_two (n : Nat) : Bool :=
  (List.range 64).any (fun m => n == 2 ^ m)

/-- `Dwt::enable_watchpoint` from `dwt.rs`, for the addressed unit, under
the assumption that every register transfer succeeds.  Mirrors the source
statement by statement: load `Comp`, `set_comp(address)`, store `Comp`;
load `Mask`, `set_mask(0b11111)`, read the in-memory `mask()` field as
`max_mask_size`; validate length, range and alignment; store `Mask` with
`new_mask_size`; load `Function`, clear the data-value controls, set the
function code from `kind`, store `Function`. -/
def enable_watchpoint (regs : DwtRegs) (address length : Nat)
    (kind : WatchKind) : DwtStep :=
  let comp1 := set_comp regs.comp address
  let regs1 : DwtRegs := { regs with comp := comp1 }
  let maskProbe := set_mask regs1.mask 0b11111
  let max_mask_size := get_mask maskProbe
  if length == 0 || !(is_power_of_two length) then
    { regs := regs1, writes := [DwtWrite.comp comp1],
      result := .error (.UnsupportedTransferWidth length) }
  else
    let new_mask_size := usize_trailing_zeros length
    if max_mask_size < new_mask_size then
      { regs := regs1, writes := [DwtWrite.comp comp1],
        result := .error .OutOfBounds }
    else if u32_trailing_zeros address < new_mask_size then
      { regs := regs1, writes := [DwtWrite.comp comp1],
        result := .error (.MemoryNotAligned address length) }
    else
      let mask1 := set_mask maskProbe new_mask_size
      let regs2 : DwtRegs := { regs1 with mask := mask1 }
      let fn1 :=
        set_function
          (set_cycmatch
            (set_datavmatch
              (set_datavaddr1 (set_datavaddr0 (set_datavsize regs2.function 0x0) 0x0) 0x0)
              false)
            false)
          (watchKindToU32 kind)
      { regs := { regs2 with function := fn1 },
        writes := [DwtWrite.comp comp1, DwtWrite.mask mask1, DwtWrite.function fn1],
        result := .ok () }

/-- The `max_mask_size` computation inside `enable_watchpoint`, isolated:
set the widest pattern `0b11111` into the in-memory copy of the loaded
`Mask` value and read the `mask()` field back from that copy. -/
def max_mask_size (mask0 : Nat) : Nat := get_mask (set_mask mask0 0b11111)

/-- `Dwt::disable_watchpoint` from `dwt.rs`: load `Function`,
`set_function(0x0)`, store `Function`; transfers assumed to succeed. -/
def disable_watchpoint (regs : DwtRegs) : DwtStep :=
  let fn1 := set_function regs.function 0x0
  { regs := { regs with function := fn1 },
    writes := [DwtWrite.function fn1],
    result := .ok () }

/-- The validation rejections of `enable_watchpoint`: length invalid
(`UnsupportedTransferWidth`), range too large (`OutOfBounds`), or address
misaligned (`MemoryNotAligned`). -/
def is_validation_error : Except ArmError Unit → Bool
  | .error (.UnsupportedTransferWidth _) => true
  | .error .OutOfBounds => true
  | .error (.MemoryNotAligned _ _) => true
  | .ok _ => false

/-!
The gdb-server adapter layer.  Two backends exist for the same gdbstub
traits: the raw backend (`src/gdb-server/src/target/breakpoints.rs`),
which resolves the ARM components and probes interface and drives the
DWT registers directly, and the session-API backend
(`src/probe-rs/src/gdb_server/target/breakpoints.rs`), which delegates to
the session's `add_data_watchpoint`/`remove_data_watchpoint`.  The
collaborators (session lock, `session.core`, `core.set_hw_breakpoint`,
`add_watchpoint`, `session.add_data_watchpoint`, …) are external to these
files, so each adapter function takes the collaborator results as explicit
parameters and returns the outcome the Rust code produces from them,
together with the arguments it passed to the watchpoint collaborator.
-/

/-- `gdbstub::target::ext::breakpoints::WatchKind`, the protocol-level
watch kind. -/
inductive GdbWatchKind : Type
  | Write
  | Read
  | ReadWrite
deriving DecidableEq, Repr

/-- The `match kind` mapping both backends apply to the protocol watch
kind before calling into probe-rs. -/
def map_watch_kind : GdbWatchKind → WatchKind
  | .Read => .Read
  | .Write => .Write
  | .ReadWrite => .ReadWrite

/-- Outcome of a gdbstub target-method call: `Ok(a)`, a structured
`TargetResult` error of type `E`, or a panic (what `.unwrap()` on an
`Err` does). -/
inductive TargetOutcome (E α : Type) : Type
  | ok (a : α)
  | err (e : E)
  | panic
deriving DecidableEq, Repr

/-- `Result::is_ok`. -/
def is_ok {E α : Type} : Except E α → Bool
  | .ok _ => true
  | .error _ => false

/-- The `for core_id in &self.cores { ... ? }` loop shared by
`add_hw_breakpoint` and `remove_hw_breakpoint` in both backends: apply
`op` to each core in order; on the first `Err` stop and return it (the
`?` operator), otherwise return `Ok(true)`.  The second component lists
the cores whose operation completed successfully before the loop ended,
in iteration order. -/
def fan_out {E : Type} (op : Nat → Except E Unit) : List Nat → Except E Bool × List Nat
  | [] => (.ok true, [])
  | c :: rest =>
    match op c with
    | .ok _ =>
      let p := fan_out op rest
      (p.1, c :: p.2)
    | .error e => (.error e, [])

/-- One loop body of the breakpoint fan-out:
`session.core(core_id).into_target_result()?` followed by
`core.set_hw_breakpoint(addr).into_target_result()?` (or the clear
variant); `core` gives the result of resolving the core, `op` the result
of the per-core breakpoint operation at the given address. -/
def per_core_op {E : Type} (core : Nat → Except E Unit)
    (op : Nat → Nat → Except E Unit) (addr c : Nat) : Except E Unit :=
  match core c with
  | .error e => .error e
  | .ok _ => op c addr

/-- `add_hw_breakpoint` (identical in both backends): lock the session
once, then program the same `addr` on every core of `self.cores` in
order, stopping at the first failure. -/
def add_hw_breakpoint {E : Type} (cores : List Nat) (addr : Nat)
    (core : Nat → Except E Unit) (set_hw_bp : Nat → Nat → Except E Unit) :
    Except E Bool × List Nat :=
  fan_out (per_core_op core set_hw_bp addr) cores

/-- `remove_hw_breakpoint` (identical in both backends): same fan-out
with `core.clear_hw_breakpoint(addr)`. -/
def remove_hw_breakpoint {E : Type} (cores : List Nat) (addr : Nat)
    (core : Nat → Except E Unit) (clear_hw_bp : Nat → Nat → Except E Unit) :
    Except E Bool × List Nat :=
  fan_out (per_core_op core clear_hw_bp addr) cores

/-- Arguments a watchpoint adapter passed to its probe-rs collaborator
(`add_watchpoint` in the raw backend, `session.add_data_watchpoint` in
the session-API backend). -/
structure WatchCall : Type where
  address : Nat
  length : Nat
  kind : WatchKind
deriving DecidableEq, Repr

/-- Raw-backend `add_hw_watchpoint`: resolve the ARM components and the
ARM interface (both `.unwrap()`ed), map the protocol kind, then call
`add_watchpoint(interface, &components, 0, addr as u32, len as usize,
kind)` and `.unwrap()` its result; on any `Err` the `.unwrap()` panics
instead of returning.  `fixed unit 0` is the hardcoded first comparator
unit.  The collaborator is applied at `(unit, address, length, kind)`. -/
def raw_add_hw_watchpoint {E R T : Type}
    (components_result : Except E Unit) (interface_result : Except E Unit)
    (add_watchpoint_result : Nat → Nat → Nat → WatchKind → Except R Unit)
    (addr len : Nat) (kind : GdbWatchKind) :
    TargetOutcome T Bool × List WatchCall :=
  match components_result with
  | .error _ => (.panic, [])
  | .ok _ =>
    match interface_result with
    | .error _ => (.panic, [])
    | .ok _ =>
      let probe_rs_kind := map_watch_kind kind
      let call : WatchCall :=
        { address := addr % 2 ^ 32, length := len % 2 ^ 64, kind := probe_rs_kind }
      match add_watchpoint_result 0 (addr % 2 ^ 32) (len % 2 ^ 64) probe_rs_kind with
      | .ok _ => (.ok true, [call])
      | .error _ => (.panic, [call])

/-- Raw-backend `remove_hw_watchpoint`: resolves components and interface
(`.unwrap()`ed), ignores the supplied address, length and kind, and calls
`remove_watchpoint(interface, &components, 0).unwrap()`; `Err` panics. -/
def raw_remove_hw_watchpoint {E R T : Type}
    (components_result : Except E Unit) (interface_result : Except E Unit)
    (remove_watchpoint_result : Nat → Except R Unit)
    (_addr _len : Nat) (_kind : GdbWatchKind) : TargetOutcome T Bool :=
  match components_result with
  | .error _ => .panic
  | .ok _ =>
    match interface_result with
    | .error _ => .panic
    | .ok _ =>
      match remove_watchpoint_result 0 with
      | .ok _ => .ok true
      | .error _ => .panic

/-- Session-API-backend `add_hw_watchpoint`: map the protocol kind, then
`Ok(session.add_data_watchpoint(addr as u32, len as usize, kind).is_ok())`
— the structured session error is collapsed into the boolean. -/
def session_add_hw_watchpoint {E T : Type}
    (add_data_watchpoint_result : Nat → Nat → WatchKind → Except E Unit)
    (addr len : Nat) (kind : GdbWatchKind) :
    TargetOutcome T Bool × List WatchCall :=
  let probe_rs_kind := map_watch_kind kind
  let call : WatchCall :=
    { address := addr % 2 ^ 32, length := len % 2 ^ 64, kind := probe_rs_kind }
  (.ok (is_ok (add_data_watchpoint_result (addr % 2 ^ 32) (len % 2 ^ 64) probe_rs_kind)),
    [call])

/-- `probe_rs::Architecture`, the session's architecture tag. -/
inductive Architecture : Type
  | Arm
  | Riscv
deriving DecidableEq, Repr

/-- Raw backend `support_sw_breakpoint`: `None`. -/
def raw_support_sw_breakpoint : Bool := false

/-- Raw backend `support_hw_breakpoint`: `Some(self)`. -/
def raw_support_hw_breakpoint : Bool := true

/-- Raw backend `support_hw_watchpoint`: `Some(self)`, unconditional. -/
def raw_support_hw_watchpoint : Bool := true

/-- Session-API backend `support_sw_breakpoint`: `None`. -/
def session_support_sw_breakpoint : Bool := false

/-- Session-API backend `support_hw_breakpoint`: `Some(self)`. -/
def session_support_hw_breakpoint : Bool := true

/-- Session-API backend `support_hw_watchpoint`: `Some(self)` when
`session.architecture()` is `Architecture::Arm`, `None` otherwise. -/
def session_support_hw_watchpoint : Architecture → Bool
  | .Arm => true
  | _ => false

/-!
Helper lemmas: bitfield arithmetic, trailing-zero characterisation, and
the power-of-two test.
-/

/-- A field read only depends on the value modulo the bits above the
field. -/
theorem bfGet_eq_mod_div (v l w : Nat) : bfGet v l w = v % (2 ^ l * 2 ^ w) / 2 ^ l :=
  (Nat.mod_mul_right_div_self v (2 ^ l) (2 ^ w)).symm

/-- A field update at `ls` leaves all bits below `ls` unchanged. -/
theorem bfSet_mod_low (v ls ws x l : Nat) (h : l ≤ ls) :
    bfSet v ls ws x % 2 ^ l = v % 2 ^ l := by
  unfold bfSet
  obtain ⟨k1, hk1⟩ : (2 : Nat) ^ l ∣ v / 2 ^ (ls + ws) * 2 ^ (ls + ws) :=
    Dvd.dvd.mul_left (pow_dvd_pow 2 (by omega)) _
  obtain ⟨k2, hk2⟩ : (2 : Nat) ^ l ∣ x % 2 ^ ws * 2 ^ ls :=
    Dvd.dvd.mul_left (pow_dvd_pow 2 h) _
  rw [hk1, hk2, Nat.add_assoc, Nat.mul_add_mod, Nat.mul_add_mod,
    Nat.mod_mod_of_dvd v (pow_dvd_pow 2 h)]

/-- A field update at `ls .. ls+ws-1` leaves all bits from `ls+ws` up
unchanged. -/
theorem bfSet_div_high (v ls ws x : Nat) :
    bfSet v ls ws x / 2 ^ (ls + ws) = v / 2 ^ (ls + ws) := by
  unfold bfSet
  have hrest : x % 2 ^ ws * 2 ^ ls + v % 2 ^ ls < 2 ^ (ls + ws) := by
    have h1 : x % 2 ^ ws ≤ 2 ^ ws - 1 := by
      have hlt : x % 2 ^ ws < 2 ^ ws := Nat.mod_lt x (by positivity)
      omega
    have h2 : x % 2 ^ ws * 2 ^ ls ≤ (2 ^ ws - 1) * 2 ^ ls :=
      Nat.mul_le_mul_right _ h1
    have h3 : v % 2 ^ ls < 2 ^ ls := Nat.mod_lt v (by positivity)
    have h4 : (2 : Nat) ^ (ls + ws) = 2 ^ ws * 2 ^ ls := by rw [pow_add]; ring
    calc x % 2 ^ ws * 2 ^ ls + v % 2 ^ ls
        ≤ (2 ^ ws - 1) * 2 ^ ls + v % 2 ^ ls := by omega
      _ < (2 ^ ws - 1) * 2 ^ ls + 2 ^ ls := by omega
      _ = 2 ^ ws * 2 ^ ls := by
          rw [Nat.sub_mul, Nat.one_mul, Nat.sub_add_cancel]
          exact Nat.le_mul_of_pos_left _ (by positivity)
      _ = 2 ^ (ls + ws) := h4.symm
  rw [Nat.add_assoc, Nat.mul_comm (v / 2 ^ (ls + ws)) (2 ^ (ls + ws)),
    Nat.mul_add_div (by positivity), Nat.div_eq_of_lt hrest, Nat.add_zero]

/-- Reading a field back right after setting it yields the stored value
(masked to the field width). -/
theorem bfGet_bfSet_same (v l w x : Nat) : bfGet (bfSet v l w x) l w = x % 2 ^ w := by
  unfold bfGet bfSet
  have hsplit : v / 2 ^ (l + w) * 2 ^ (l + w) + x % 2 ^ w * 2 ^ l + v % 2 ^ l
      = 2 ^ l * (v / 2 ^ (l + w) * 2 ^ w + x % 2 ^ w) + v % 2 ^ l := by
    rw [pow_add]; ring
  rw [hsplit, Nat.mul_add_div (by positivity),
    Nat.div_eq_of_lt (Nat.mod_lt v (by positivity)), Nat.add_zero,
    Nat.add_comm, Nat.add_mul_mod_self_right, Nat.mod_mod_of_dvd x dvd_rfl]

/-- A read of a field lying entirely above an updated field is
unchanged. -/
theorem bfGet_bfSet_above (v ls ws x lg wg : Nat) (h : ls + ws ≤ lg) :
    bfGet (bfSet v ls ws x) lg wg = bfGet v lg wg := by
  unfold bfGet
  have hpow : (2 : Nat) ^ (ls + ws) * 2 ^ (lg - (ls + ws)) = 2 ^ lg := by
    rw [← pow_add]
    congr 1
    omega
  rw [← hpow, ← Nat.div_div_eq_div_mul, ← Nat.div_div_eq_div_mul, bfSet_div_high]

/-- A read of a field lying entirely below an updated field is
unchanged. -/
theorem bfGet_bfSet_below (v ls ws x lg wg : Nat) (h : lg + wg ≤ ls) :
    bfGet (bfSet v ls ws x) lg wg = bfGet v lg wg := by
  rw [bfGet_eq_mod_div, bfGet_eq_mod_div, ← pow_add,
    ← Nat.mod_mod_of_dvd (bfSet v ls ws x) (pow_dvd_pow 2 h),
    bfSet_mod_low v ls ws x ls le_rfl,
    Nat.mod_mod_of_dvd v (pow_dvd_pow 2 h)]

/-- With fuel at least `m`, the fuelled trailing-zero count is below `m`
exactly when the value is not divisible by `2^m`. -/
theorem tz_fuel_lt_iff (fuel : Nat) :
    ∀ x m : Nat, m ≤ fuel → (tz_fuel x fuel < m ↔ x % 2 ^ m ≠ 0) := by
  induction fuel with
  | zero =>
    intro x m hm
    have hm0 : m = 0 := by omega
    subst hm0
    simp [Nat.mod_one]
  | succ fuel ih =>
    intro x m hm
    cases m with
    | zero => simp [Nat.mod_one]
    | succ m =>
      rw [tz_fuel]
      by_cases hx : x % 2 = 0
      · rw [if_pos hx]
        have ihx := ih (x / 2) m (by omega)
        have hxe : x = 2 * (x / 2) := by omega
        have hpow : (2 : Nat) ^ (m + 1) = 2 * 2 ^ m := by ring
        have h2 : x % 2 ^ (m + 1) = 2 * (x / 2 % 2 ^ m) := by
          conv_lhs => rw [hpow, hxe]
          exact Nat.mul_mod_mul_left 2 _ _
        rw [h2]
        omega
      · rw [if_neg hx]
        have hne : x % 2 ^ (m + 1) ≠ 0 := by
          intro h0
          have hdvd : 2 ∣ x := by
            have h21 : (2 : Nat) ∣ 2 ^ (m + 1) := dvd_pow_self 2 (Nat.succ_ne_zero m)
            exact h21.trans (Nat.dvd_of_mod_eq_zero h0)
          omega
        exact ⟨fun _ => hne, fun _ => by omega⟩

/-- The fuelled trailing-zero count of `2^m` is `m` when the fuel
suffices. -/
theorem tz_fuel_pow (m fuel : Nat) (h : m < fuel) : tz_fuel (2 ^ m) fuel = m := by
  have h1 := tz_fuel_lt_iff fuel (2 ^ m) m (by omega)
  have h2 := tz_fuel_lt_iff fuel (2 ^ m) (m + 1) (by omega)
  have e1 : (2 : Nat) ^ m % 2 ^ m = 0 := Nat.mod_self _
  have e2 : (2 : Nat) ^ m % 2 ^ (m + 1) = 2 ^ m := by
    apply Nat.mod_eq_of_lt
    exact Nat.pow_lt_pow_succ (by omega)
  have hp : (2 : Nat) ^ m ≠ 0 := by positivity
  omega

/-- `is_power_of_two` holds exactly for the 64 powers of two a `usize`
can hold. -/
theorem is_power_of_two_iff (n : Nat) :
    is_power_of_two n = true ↔ ∃ m, m < 64 ∧ n = 2 ^ m := by
  simp [is_power_of_two, List.any_eq_true, List.mem_range, beq_iff_eq]

/-- `usize::trailing_zeros` of `2^m` is `m` for any representable power. -/
theorem usize_trailing_zeros_pow (m : Nat) (hm : m < 64) :
    usize_trailing_zeros (2 ^ m) = m := by
  unfold usize_trailing_zeros
  rw [Nat.mod_eq_of_lt (Nat.pow_lt_pow_right (by omega) hm)]
  exact tz_fuel_pow m 64 hm

/-- `u32::trailing_zeros addr < m` is exactly misalignment of `addr` to a
`2^m`-byte boundary. -/
theorem u32_trailing_zeros_lt_iff (addr m : Nat) (haddr : addr < 2 ^ 32) (hm : m ≤ 32) :
    (u32_trailing_zeros addr < m ↔ addr % 2 ^ m ≠ 0) := by
  unfold u32_trailing_zeros
  rw [Nat.mod_eq_of_lt haddr]
  exact tz_fuel_lt_iff 32 addr m hm

/-- For a representable power of two, the length guard of
`enable_watchpoint` does not fire. -/
theorem length_guard_false (m : Nat) (hm : m < 64) :
    ((2 ^ m == 0) || !(is_power_of_two (2 ^ m))) = false := by
  have h1 : is_power_of_two (2 ^ m) = true := (is_power_of_two_iff _).mpr ⟨m, hm, rfl⟩
  have h2 : (2 : Nat) ^ m ≠ 0 := by positivity
  simp [h1, h2]

/-- `mask()` after `set_mask x` reads back `x` clipped to the 5-bit
field. -/
theorem get_mask_set_mask (v x : Nat) : get_mask (set_mask v x) = x % 32 := by
  unfold get_mask set_mask
  rw [bfGet_bfSet_same]
  norm_num

/-- `function()` after `set_function x` reads back `x` clipped to the
4-bit field. -/
theorem get_function_set_function (v x : Nat) : get_function (set_function v x) = x % 16 := by
  unfold get_function set_function
  rw [bfGet_bfSet_same]
  norm_num

/-- `datavsize()` after `set_datavsize x` reads back `x` clipped to the
2-bit field. -/
theorem get_datavsize_set_datavsize (v x : Nat) : get_datavsize (set_datavsize v x) = x % 4 := by
  unfold get_datavsize set_datavsize
  rw [bfGet_bfSet_same]
  norm_num

/-- `datavaddr0()` after `set_datavaddr0 x` reads back `x` clipped to the
4-bit field. -/
theorem get_datavaddr0_set_datavaddr0 (v x : Nat) :
    get_datavaddr0 (set_datavaddr0 v x) = x % 16 := by
  unfold get_datavaddr0 set_datavaddr0
  rw [bfGet_bfSet_same]
  norm_num

/-- `datavaddr1()` after `set_datavaddr1 x` reads back `x` clipped to the
4-bit field. -/
theorem get_datavaddr1_set_datavaddr1 (v x : Nat) :
    get_datavaddr1 (set_datavaddr1 v x) = x % 16 := by
  unfold get_datavaddr1 set_datavaddr1
  rw [bfGet_bfSet_same]
  norm_num

/-- `datavmatch()` after `set_datavmatch b` reads back `b`. -/
theorem get_datavmatch_set_datavmatch (v : Nat) (b : Bool) :
    get_datavmatch (set_datavmatch v b) = b := by
  cases b <;> simp [get_datavmatch, set_datavmatch, bfGet_bfSet_same]

/-- `cycmatch()` after `set_cycmatch b` reads back `b`. -/
theorem get_cycmatch_set_cycmatch (v : Nat) (b : Bool) :
    get_cycmatch (set_cycmatch v b) = b := by
  cases b <;> simp [get_cycmatch, set_cycmatch, bfGet_bfSet_same]

/-- `datavsize` (bits 11..10) is untouched by `set_function` (bits 3..0). -/
theorem get_datavsize_set_function (v x : Nat) :
    get_datavsize (set_function v x) = get_datavsize v :=
  bfGet_bfSet_above v 0 4 x 10 2 (by norm_num)

/-- `datavsize` is untouched by `set_cycmatch` (bit 7). -/
theorem get_datavsize_set_cycmatch (v : Nat) (b : Bool) :
    get_datavsize (set_cycmatch v b) = get_datavsize v :=
  bfGet_bfSet_above v 7 1 _ 10 2 (by norm_num)

/-- `datavsize` is untouched by `set_datavmatch` (bit 8). -/
theorem get_datavsize_set_datavmatch (v : Nat) (b : Bool) :
    get_datavsize (set_datavmatch v b) = get_datavsize v :=
  bfGet_bfSet_above v 8 1 _ 10 2 (by norm_num)

/-- `datavsize` (bits 11..10) is untouched by `set_datavaddr1`
(bits 19..16). -/
theorem get_datavsize_set_datavaddr1 (v x : Nat) :
    get_datavsize (set_datavaddr1 v x) = get_datavsize v :=
  bfGet_bfSet_below v 16 4 x 10 2 (by norm_num)

/-- `datavsize` (bits 11..10) is untouched by `set_datavaddr0`
(bits 15..12). -/
theorem get_datavsize_set_datavaddr0 (v x : Nat) :
    get_datavsize (set_datavaddr0 v x) = get_datavsize v :=
  bfGet_bfSet_below v 12 4 x 10 2 (by norm_num)

/-- `datavaddr0` (bits 15..12) is untouched by `set_function`. -/
theorem get_datavaddr0_set_function (v x : Nat) :
    get_datavaddr0 (set_function v x) = get_datavaddr0 v :=
  bfGet_bfSet_above v 0 4 x 12 4 (by norm_num)

/-- `datavaddr0` is untouched by `set_cycmatch`. -/
theorem get_datavaddr0_set_cycmatch (v : Nat) (b : Bool) :
    get_datavaddr0 (set_cycmatch v b) = get_datavaddr0 v :=
  bfGet_bfSet_above v 7 1 _ 12 4 (by norm_num)

/-- `datavaddr0` is untouched by `set_datavmatch`. -/
theorem get_datavaddr0_set_datavmatch (v : Nat) (b : Bool) :
    get_datavaddr0 (set_datavmatch v b) = get_datavaddr0 v :=
  bfGet_bfSet_above v 8 1 _ 12 4 (by norm_num)

/-- `datavaddr0` (bits 15..12) is untouched by `set_datavaddr1`
(bits 19..16). -/
theorem get_datavaddr0_set_datavaddr1 (v x : Nat) :
    get_datavaddr0 (set_datavaddr1 v x) = get_datavaddr0 v :=
  bfGet_bfSet_below v 16 4 x 12 4 (by norm_num)

/-- `datavaddr1` (bits 19..16) is untouched by `set_function`. -/
theorem get_datavaddr1_set_function (v x : Nat) :
    get_datavaddr1 (set_function v x) = get_datavaddr1 v :=
  bfGet_bfSet_above v 0 4 x 16 4 (by norm_num)

/-- `datavaddr1` is untouched by `set_cycmatch`. -/
theorem get_datavaddr1_set_cycmatch (v : Nat) (b : Bool) :
    get_datavaddr1 (set_cycmatch v b) = get_datavaddr1 v :=
  bfGet_bfSet_above v 7 1 _ 16 4 (by norm_num)

/-- `datavaddr1` is untouched by `set_datavmatch`. -/
theorem get_datavaddr1_set_datavmatch (v : Nat) (b : Bool) :
    get_datavaddr1 (set_datavmatch v b) = get_datavaddr1 v :=
  bfGet_bfSet_above v 8 1 _ 16 4 (by norm_num)

/-- `datavmatch` (bit 8) is untouched by `set_function`. -/
theorem get_datavmatch_set_function (v x : Nat) :
    get_datavmatch (set_function v x) = get_datavmatch v := by
  unfold get_datavmatch set_function
  rw [bfGet_bfSet_above v 0 4 x 8 1 (by norm_num)]

/-- `datavmatch` (bit 8) is untouched by `set_cycmatch` (bit 7). -/
theorem get_datavmatch_set_cycmatch (v : Nat) (b : Bool) :
    get_datavmatch (set_cycmatch v b) = get_datavmatch v := by
  unfold get_datavmatch set_cycmatch
  rw [bfGet_bfSet_above v 7 1 _ 8 1 (by norm_num)]

/-- `cycmatch` (bit 7) is untouched by `set_function` (bits 3..0). -/
theorem get_cycmatch_set_function (v x : Nat) :
    get_cycmatch (set_function v x) = get_cycmatch v := by
  unfold get_cycmatch set_function
  rw [bfGet_bfSet_above v 0 4 x 7 1 (by norm_num)]

/-- Writing the whole 32-bit `Comp` register replaces its value. -/
theorem set_comp_eq (v x : Nat) (hv : v < 2 ^ 32) (hx : x < 2 ^ 32) :
    set_comp v x = x := by
  unfold set_comp bfSet
  norm_num
  omega

/-- Decidable equality for `Result` values, used to evaluate the
embedding on concrete inputs. -/
instance exceptDecidableEq {E α : Type} [DecidableEq E] [DecidableEq α] :
    DecidableEq (Except E α)
  | .ok x, .ok y =>
    if h : x = y then .isTrue (congrArg Except.ok h)
    else .isFalse (fun hc => h (by cases hc; rfl))
  | .ok _, .error _ => .isFalse (fun hc => Except.noConfusion hc)
  | .error _, .ok _ => .isFalse (fun hc => Except.noConfusion hc)
  | .error x, .error y =>
    if h : x = y then .isTrue (congrArg Except.error h)
    else .isFalse (fun hc => h (by cases hc; rfl))

/-- The in-memory probe always reports the full 5-bit field maximum, 31,
whatever the loaded hardware value was. -/
theorem max_mask_size_eq (mask0 : Nat) : max_mask_size mask0 = 31 := by
  unfold max_mask_size
  rw [get_mask_set_mask]

/-- The result of `enable_watchpoint` as a decision tree in source
order: length guard, then range guard against the constant 31, then
alignment guard. -/
theorem enable_watchpoint_result_char (regs : DwtRegs) (addr len : Nat) (kind : WatchKind) :
    (enable_watchpoint regs addr len kind).result =
      (if (len == 0) || !(is_power_of_two len) then
        Except.error (ArmError.UnsupportedTransferWidth len)
      else if 31 < usize_trailing_zeros len then Except.error ArmError.OutOfBounds
      else if u32_trailing_zeros addr < usize_trailing_zeros len then
        Except.error (ArmError.MemoryNotAligned addr len)
      else Except.ok ()) := by
  unfold enable_watchpoint
  simp only [apply_ite DwtStep.result]
  rw [get_mask_set_mask]

/-- The register stores of `enable_watchpoint`: every rejected call has
already stored `Comp`; a successful call stores `Comp`, `Mask`,
`Function` in that order. -/
theorem enable_watchpoint_writes_char (regs : DwtRegs) (addr len : Nat) (kind : WatchKind) :
    (enable_watchpoint regs addr len kind).writes =
      (if (len == 0) || !(is_power_of_two len) then
        [DwtWrite.comp (set_comp regs.comp addr)]
      else if 31 < usize_trailing_zeros len then [DwtWrite.comp (set_comp regs.comp addr)]
      else if u32_trailing_zeros addr < usize_trailing_zeros len then
        [DwtWrite.comp (set_comp regs.comp addr)]
      else
        [DwtWrite.comp (set_comp regs.comp addr),
         DwtWrite.mask (set_mask (set_mask regs.mask 0b11111) (usize_trailing_zeros len)),
         DwtWrite.function (set_function
           (set_cycmatch
             (set_datavmatch
               (set_datavaddr1 (set_datavaddr0 (set_datavsize regs.function 0x0) 0x0) 0x0)
               false)
             false)
           (watchKindToU32 kind))]) := by
  unfold enable_watchpoint
  simp only [apply_ite DwtStep.writes]
  rw [get_mask_set_mask]

/-- The final register state of `enable_watchpoint`: a rejected call has
only `Comp` updated; a successful call has `Comp`, `Mask` and `Function`
updated. -/
theorem enable_watchpoint_regs_char (regs : DwtRegs) (addr len : Nat) (kind : WatchKind) :
    (enable_watchpoint regs addr len kind).regs =
      (if (len == 0) || !(is_power_of_two len) then
        { regs with comp := set_comp regs.comp addr }
      else if 31 < usize_trailing_zeros len then { regs with comp := set_comp regs.comp addr }
      else if u32_trailing_zeros addr < usize_trailing_zeros len then
        { regs with comp := set_comp regs.comp addr }
      else
        { comp := set_comp regs.comp addr,
          mask := set_mask (set_mask regs.mask 0b11111) (usize_trailing_zeros len),
          function := set_function
            (set_cycmatch
              (set_datavmatch
                (set_datavaddr1 (set_datavaddr0 (set_datavsize regs.function 0x0) 0x0) 0x0)
                false)
              false)
            (watchKindToU32 kind) }) := by
  unfold enable_watchpoint
  simp only [apply_ite DwtStep.regs]
  rw [get_mask_set_mask]

/-- For a power-of-two length, the result of `enable_watchpoint` reduces
to the range guard followed by the alignment guard, in that order. -/
theorem enable_watchpoint_result_pow (regs : DwtRegs) (addr m : Nat) (kind : WatchKind)
    (haddr : addr < 2 ^ 32) (hm : m < 64) :
    (enable_watchpoint regs addr (2 ^ m) kind).result =
      (if 31 < m then Except.error ArmError.OutOfBounds
       else if addr % 2 ^ m ≠ 0 then Except.error (ArmError.MemoryNotAligned addr (2 ^ m))
       else Except.ok ()) := by
  rw [enable_watchpoint_result_char, length_guard_false m hm]
  simp only [Bool.false_eq_true, if_false]
  rw [usize_trailing_zeros_pow m hm]
  by_cases h31 : 31 < m
  · rw [if_pos h31, if_pos h31]
  · rw [if_neg h31, if_neg h31]
    by_cases hal : u32_trailing_zeros addr < m
    · rw [if_pos hal]
      have h := (u32_trailing_zeros_lt_iff addr m haddr (by omega)).mp hal
      rw [if_pos h]
    · rw [if_neg hal]
      have h := (u32_trailing_zeros_lt_iff addr m haddr (by omega)).not.mp hal
      simp only [ne_eq, Decidable.not_not] at h
      simp [h]

/-- If every core's operation succeeds, the fan-out loop reaches every
core in order and returns `Ok(true)`. -/
theorem fan_out_all_ok {E : Type} (op : Nat → Except E Unit) :
    ∀ cores : List Nat, (∀ c ∈ cores, op c = .ok ()) →
      fan_out op cores = (.ok true, cores)
  | [], _ => rfl
  | c :: rest, h => by
    have hc : op c = .ok () := h c (List.mem_cons_self c rest)
    have hrest := fan_out_all_ok op rest (fun d hd => h d (List.mem_cons_of_mem c hd))
    simp [fan_out, hc, hrest]

/-- If the cores before `k` succeed and `k` fails, the fan-out loop
stops at `k`: exactly the cores before `k` were programmed and the error
of `k` is returned. -/
theorem fan_out_stops {E : Type} (op : Nat → Except E Unit) (k : Nat) (post : List Nat) (e : E) :
    ∀ pre : List Nat, (∀ c ∈ pre, op c = .ok ()) → op k = .error e →
      fan_out op (pre ++ k :: post) = (.error e, pre)
  | [], _, hk => by simp [fan_out, hk]
  | c :: pre, h, hk => by
    have hc : op c = .ok () := h c (List.mem_cons_self c pre)
    have hrest := fan_out_stops op k post e pre (fun d hd => h d (List.mem_cons_of_mem c hd)) hk
    simp [fan_out, hc, hrest]

/-!
The claims.
-/

/-- Claim C1, counterexample: `enable_watchpoint` with `length = 0` is
rejected with the length validation error, yet a register write has
already happened — `Comp` was stored (value 0 here) before validation,
so the write list is not empty. -/
theorem C1_counterexample :
    (enable_watchpoint ⟨0, 0, 0⟩ 0 0 WatchKind.Write).result
      = Except.error (ArmError.UnsupportedTransferWidth 0)
    ∧ (enable_watchpoint ⟨0, 0, 0⟩ 0 0 WatchKind.Write).writes = [DwtWrite.comp 0]
    ∧ (enable_watchpoint ⟨0, 0, 0⟩ 0 0 WatchKind.Write).writes ≠ [] :=
  ⟨rfl, rfl, by decide⟩

/-- Claim C1, amended: whenever `enable_watchpoint` rejects with a
validation error (`InvalidWatchRequest`, `RangeTooLarge` or
`MisalignedAddress`), the rejection happens before any write to
`Mask[unit]` or `Function[unit]` — but after the requested address has
already been stored to `Comp[unit]`: the write list of every rejected
call is exactly the single `Comp` store. -/
theorem C1_amended (regs : DwtRegs) (addr len : Nat) (kind : WatchKind)
    (herr : is_validation_error (enable_watchpoint regs addr len kind).result = true) :
    (enable_watchpoint regs addr len kind).writes
      = [DwtWrite.comp (set_comp regs.comp addr)] := by
  rw [enable_watchpoint_writes_char]
  rw [enable_watchpoint_result_char] at herr
  split_ifs at herr ⊢ <;> first
    | rfl
    | simp [is_validation_error] at herr

/-- Claim C1, witness: the amended statement at
`regs = ⟨0,0,0⟩`, `addr = 4`, `len = 0`. -/
theorem C1_witness :
    is_validation_error (enable_watchpoint ⟨0, 0, 0⟩ 4 0 WatchKind.Write).result = true
    ∧ (enable_watchpoint ⟨0, 0, 0⟩ 4 0 WatchKind.Write).writes
        = [DwtWrite.comp (set_comp 0 4)] :=
  ⟨by decide, C1_amended ⟨0, 0, 0⟩ 4 0 WatchKind.Write (by decide)⟩

/-- Claim C2, counterexample: the maximum mask width used by
`enable_watchpoint` is NOT read back from the hardware.  Whatever the
hardware's `Mask[unit]` register holds on load (0 and 3 here, values a
hardware clipping to a narrow width would produce), the computed
maximum is the in-memory field maximum 31; a request with mask width 31
(`length = 2^31`) succeeds even when the loaded hardware mask value is
3, although a hardware that clips to 2 bits should have made it a
`RangeTooLarge` rejection under the claim; and the probe emits no
`Mask` store at all (the write list of a rejected call holds only the
`Comp` store). -/
theorem C2_counterexample :
    max_mask_size 0 = 31
    ∧ max_mask_size 3 = 31
    ∧ (enable_watchpoint ⟨0, 3, 0⟩ 0 (2 ^ 31) WatchKind.Write).result = Except.ok ()
    ∧ (enable_watchpoint ⟨0, 3, 0⟩ 0 0 WatchKind.Write).writes
        = [DwtWrite.comp 0] :=
  ⟨rfl, rfl, by decide, rfl⟩

/-- Claim C2, amended: the maximum mask width is computed by setting the
widest pattern `0b11111` into the in-memory copy of the loaded
`Mask[unit]` value and reading the field back from that copy, with no
intervening hardware store or read-back; it is therefore always 31, the
register field's full width, and the accept/reject outcome of
`enable_watchpoint` is independent of every loaded register value. -/
theorem C2_amended :
    (∀ mask0 : Nat, max_mask_size mask0 = 31)
    ∧ ∀ (regs regsB : DwtRegs) (addr len : Nat) (kind : WatchKind),
        (enable_watchpoint regs addr len kind).result
          = (enable_watchpoint regsB addr len kind).result := by
  refine ⟨max_mask_size_eq, ?_⟩
  intro regs regsB addr len kind
  rw [enable_watchpoint_result_char, enable_watchpoint_result_char]

/-- Claim C3: the breakpoint fan-out acquires the one session and
programs the identical address on every core of the stable `cores` list
in order.  If the cores before `k` succeed and core `k` fails with `e`,
both `add_hw_breakpoint` and `remove_hw_breakpoint` return `Err(e)` —
never a success — and exactly the cores before `k` were programmed,
keeping their new state with no rollback; if every core succeeds, all
cores are programmed and `Ok(true)` is returned. -/
theorem C3_fan_out_atomicity {E : Type} (pre post : List Nat) (k addr : Nat)
    (core : Nat → Except E Unit) (bp_op : Nat → Nat → Except E Unit) (e : E) :
    ((∀ c ∈ pre, per_core_op core bp_op addr c = .ok ()) →
      per_core_op core bp_op addr k = .error e →
      add_hw_breakpoint (pre ++ k :: post) addr core bp_op = (.error e, pre)
      ∧ remove_hw_breakpoint (pre ++ k :: post) addr core bp_op = (.error e, pre))
    ∧ ((∀ c ∈ pre ++ k :: post, per_core_op core bp_op addr c = .ok ()) →
      add_hw_breakpoint (pre ++ k :: post) addr core bp_op = (.ok true, pre ++ k :: post)
      ∧ remove_hw_breakpoint (pre ++ k :: post) addr core bp_op
          = (.ok true, pre ++ k :: post)) := by
  constructor
  · intro hpre hk
    have h := fan_out_stops (per_core_op core bp_op addr) k post e pre hpre hk
    exact ⟨h, h⟩
  · intro hall
    have h := fan_out_all_ok (per_core_op core bp_op addr) (pre ++ k :: post) hall
    exact ⟨h, h⟩

/-- Claim C3, witness: four cores `[10, 11, 12, 13]` where core 12
fails with error 7: cores 10 and 11 stay programmed, the fan-out stops
and error 7 is reported. -/
theorem C3_witness :
    (∀ c ∈ [10, 11], per_core_op (fun _ => (Except.ok () : Except Nat Unit))
        (fun c _ => if c == 12 then Except.error 7 else Except.ok ()) 0x1000 c = Except.ok ())
    ∧ per_core_op (fun _ => (Except.ok () : Except Nat Unit))
        (fun c _ => if c == 12 then Except.error 7 else Except.ok ()) 0x1000 12
        = Except.error 7
    ∧ add_hw_breakpoint [10, 11, 12, 13] 0x1000 (fun _ => (Except.ok () : Except Nat Unit))
        (fun c _ => if c == 12 then Except.error 7 else Except.ok ())
        = (Except.error 7, [10, 11]) := by
  refine ⟨by decide, by decide, ?_⟩
  exact ((C3_fan_out_atomicity [10, 11] [13] 12 0x1000
    (fun _ => (Except.ok () : Except Nat Unit))
    (fun c _ => if c == 12 then Except.error 7 else Except.ok ()) 7).1
    (by decide) (by decide)).1

/-- Claim C4, counterexample: `addr = 2`, `length = 2^32` is both
misaligned (`2 mod 2^32 ≠ 0`) and too large (`m = 32 > 31`), and
`enable_watchpoint` rejects it with `OutOfBounds` (`RangeTooLarge`);
the claimed priority of `MisalignedAddress` does not hold — the range
check comes first in the code. -/
theorem C4_counterexample :
    (enable_watchpoint ⟨0, 0, 0⟩ 2 (2 ^ 32) WatchKind.Write).result
      = Except.error ArmError.OutOfBounds
    ∧ (enable_watchpoint ⟨0, 0, 0⟩ 2 (2 ^ 32) WatchKind.Write).result
        ≠ Except.error (ArmError.MemoryNotAligned 2 (2 ^ 32))
    ∧ (2 : Nat) % 2 ^ 32 ≠ 0 :=
  ⟨rfl, by decide, by decide⟩

/-- Claim C4, amended: for `length = 2^m` the checks run in code order —
first, if `m` exceeds 31 (the constant in-memory maximum) the call is
rejected with `RangeTooLarge`, whatever the alignment; only for
`m ≤ 31` is the alignment checked, rejecting a misaligned address with
`MisalignedAddress`; an aligned request with `m ≤ 31` succeeds. -/
theorem C4_amended (regs : DwtRegs) (addr m : Nat) (kind : WatchKind)
    (haddr : addr < 2 ^ 32) (hm : m < 64) :
    (31 < m →
      (enable_watchpoint regs addr (2 ^ m) kind).result = Except.error ArmError.OutOfBounds)
    ∧ (m ≤ 31 → addr % 2 ^ m ≠ 0 →
      (enable_watchpoint regs addr (2 ^ m) kind).result
        = Except.error (ArmError.MemoryNotAligned addr (2 ^ m)))
    ∧ (m ≤ 31 → addr % 2 ^ m = 0 →
      (enable_watchpoint regs addr (2 ^ m) kind).result = Except.ok ()) := by
  rw [enable_watchpoint_result_pow regs addr m kind haddr hm]
  refine ⟨fun h31 => ?_, fun h31 hmis => ?_, fun h31 hal => ?_⟩
  · rw [if_pos h31]
  · rw [if_neg (by omega), if_pos hmis]
  · rw [if_neg (by omega), if_neg (by simp [hal])]

/-- Claim C4, witness: the amended statement at the spec's own
scenario, `addr = 0x20001001`, `length = 4` — misaligned, rejected with
`MisalignedAddress`. -/
theorem C4_witness :
    (2 : Nat) ≤ 31 ∧ (0x20001001 : Nat) % 2 ^ 2 ≠ 0
    ∧ (enable_watchpoint ⟨0, 0, 0⟩ 0x20001001 (2 ^ 2) WatchKind.Write).result
        = Except.error (ArmError.MemoryNotAligned 0x20001001 (2 ^ 2)) :=
  ⟨by decide, by decide,
    (C4_amended ⟨0, 0, 0⟩ 0x20001001 2 WatchKind.Write (by decide) (by decide)).2.1
      (by decide) (by decide)⟩

/-- Claim C5: when `enable_watchpoint` succeeds, the final register
state is `Comp[unit] = address`, the `Mask[unit]` field holds
`log2 length`, and `Function[unit]` holds data-value-size byte (0),
both data-value-address sub-fields 0, data-value-match and cycle-match
disabled, and function code `0b0110`/`0b0101`/`0b0111` for
Write/Read/ReadWrite. -/
theorem C5_success_state (regs : DwtRegs) (addr len : Nat) (kind : WatchKind)
    (hcomp : regs.comp < 2 ^ 32) (haddr : addr < 2 ^ 32)
    (hok : (enable_watchpoint regs addr len kind).result = Except.ok ()) :
    (enable_watchpoint regs addr len kind).regs.comp = addr
    ∧ get_mask (enable_watchpoint regs addr len kind).regs.mask = Nat.log2 len
    ∧ get_datavsize (enable_watchpoint regs addr len kind).regs.function = 0
    ∧ get_datavaddr0 (enable_watchpoint regs addr len kind).regs.function = 0
    ∧ get_datavaddr1 (enable_watchpoint regs addr len kind).regs.function = 0
    ∧ get_datavmatch (enable_watchpoint regs addr len kind).regs.function = false
    ∧ get_cycmatch (enable_watchpoint regs addr len kind).regs.function = false
    ∧ get_function (enable_watchpoint regs addr len kind).regs.function = watchKindToU32 kind := by
  rw [enable_watchpoint_result_char] at hok
  split_ifs at hok with h1 h2 h3
  rw [enable_watchpoint_regs_char, if_neg h1, if_neg h2, if_neg h3]
  have hpow : is_power_of_two len = true := by
    cases h : is_power_of_two len with
    | true => rfl
    | false => exact absurd (by simp [h]) h1
  obtain ⟨m, hm64, rfl⟩ := (is_power_of_two_iff len).mp hpow
  have htz : usize_trailing_zeros (2 ^ m) = m := usize_trailing_zeros_pow m hm64
  have hm31 : m ≤ 31 := by
    rw [htz] at h2
    omega
  refine ⟨?_, ?_, ?_, ?_, ?_, ?_, ?_, ?_⟩
  · simpa using set_comp_eq regs.comp addr hcomp haddr
  · simp only [get_mask_set_mask, htz]
    rw [Nat.log2_eq_log_two, Nat.log_pow (by omega)]
    omega
  · simp only [get_datavsize_set_function, get_datavsize_set_cycmatch,
      get_datavsize_set_datavmatch, get_datavsize_set_datavaddr1,
      get_datavsize_set_datavaddr0, get_datavsize_set_datavsize]
  · simp only [get_datavaddr0_set_function, get_datavaddr0_set_cycmatch,
      get_datavaddr0_set_datavmatch, get_datavaddr0_set_datavaddr1,
      get_datavaddr0_set_datavaddr0]
  · simp only [get_datavaddr1_set_function, get_datavaddr1_set_cycmatch,
      get_datavaddr1_set_datavmatch, get_datavaddr1_set_datavaddr1]
  · simp only [get_datavmatch_set_function, get_datavmatch_set_cycmatch,
      get_datavmatch_set_datavmatch]
  · simp only [get_cycmatch_set_function, get_cycmatch_set_cycmatch]
  · simp only [get_function_set_function]
    cases kind <;> rfl

/-- Claim C5, witness: the spec's scenario `length = 4`,
`address = 0x20001000`, kind Write — accepted, `Mask` field reads 2,
function code is `0b0110`. -/
theorem C5_witness :
    (0 : Nat) < 2 ^ 32 ∧ (0x20001000 : Nat) < 2 ^ 32
    ∧ (enable_watchpoint ⟨0, 0, 0⟩ 0x20001000 4 WatchKind.Write).result = Except.ok ()
    ∧ get_mask (enable_watchpoint ⟨0, 0, 0⟩ 0x20001000 4 WatchKind.Write).regs.mask = Nat.log2 4
    ∧ get_function (enable_watchpoint ⟨0, 0, 0⟩ 0x20001000 4 WatchKind.Write).regs.function
        = watchKindToU32 WatchKind.Write :=
  ⟨by decide, by decide, by decide,
    (C5_success_state ⟨0, 0, 0⟩ 0x20001000 4 WatchKind.Write (by decide) (by decide)
      (by decide)).2.1,
    (C5_success_state ⟨0, 0, 0⟩ 0x20001000 4 WatchKind.Write (by decide) (by decide)
      (by decide)).2.2.2.2.2.2.2⟩

/-- Claim C6, counterexample: in the raw backend, an underlying error
from `add_watchpoint` (here error 42) is not converted into a
protocol-level error — the `.unwrap()` panics, so the outcome is a
panic, not a structured error carrying the detail; likewise for
`remove_hw_watchpoint`. -/
theorem C6_counterexample :
    (raw_add_hw_watchpoint (Except.ok () : Except Nat Unit) (Except.ok ())
        (fun _ _ _ _ => (Except.error 42 : Except Nat Unit)) 0 4 GdbWatchKind.Write).1
      = (TargetOutcome.panic : TargetOutcome Nat Bool)
    ∧ (TargetOutcome.panic : TargetOutcome Nat Bool) ≠ TargetOutcome.err 42
    ∧ raw_remove_hw_watchpoint (Except.ok () : Except Nat Unit) (Except.ok ())
        (fun _ => (Except.error 42 : Except Nat Unit)) 0 4 GdbWatchKind.Write
      = (TargetOutcome.panic : TargetOutcome Nat Bool) :=
  ⟨rfl, by decide, rfl⟩

/-- Claim C6, amended: in the raw backend's `add_hw_watchpoint` and
`remove_hw_watchpoint` (components and interface resolving), any
underlying error makes the `.unwrap()` panic — the error detail is
discarded and the call never returns, neither as `Ok` nor as a
structured target error; only a successful underlying call returns,
with `Ok(true)`. -/
theorem C6_amended {E R T : Type} (f : Nat → Nat → Nat → WatchKind → Except R Unit)
    (g : Nat → Except R Unit) (addr len : Nat) (kind : GdbWatchKind) :
    ((∀ r : R, f 0 (addr % 2 ^ 32) (len % 2 ^ 64) (map_watch_kind kind) = .error r →
        (raw_add_hw_watchpoint (Except.ok () : Except E Unit) (Except.ok ()) f addr len kind
          : TargetOutcome T Bool × List WatchCall).1 = TargetOutcome.panic)
      ∧ (f 0 (addr % 2 ^ 32) (len % 2 ^ 64) (map_watch_kind kind) = .ok () →
        (raw_add_hw_watchpoint (Except.ok () : Except E Unit) (Except.ok ()) f addr len kind
          : TargetOutcome T Bool × List WatchCall).1 = TargetOutcome.ok true)
      ∧ (∀ e : T,
        (raw_add_hw_watchpoint (Except.ok () : Except E Unit) (Except.ok ()) f addr len kind
          : TargetOutcome T Bool × List WatchCall).1 ≠ TargetOutcome.err e))
    ∧ ((∀ r : R, g 0 = .error r →
        (raw_remove_hw_watchpoint (Except.ok () : Except E Unit) (Except.ok ()) g addr len kind
          : TargetOutcome T Bool) = TargetOutcome.panic)
      ∧ (g 0 = .ok () →
        (raw_remove_hw_watchpoint (Except.ok () : Except E Unit) (Except.ok ()) g addr len kind
          : TargetOutcome T Bool) = TargetOutcome.ok true)
      ∧ (∀ e : T,
        (raw_remove_hw_watchpoint (Except.ok () : Except E Unit) (Except.ok ()) g addr len kind
          : TargetOutcome T Bool) ≠ TargetOutcome.err e)) := by
  unfold raw_add_hw_watchpoint raw_remove_hw_watchpoint
  dsimp only
  refine ⟨⟨fun r hr => ?_, fun hok => ?_, fun e => ?_⟩,
    ⟨fun r hr => ?_, fun hok => ?_, fun e => ?_⟩⟩
  · rw [hr]
  · rw [hok]
  · cases hf : f 0 (addr % 2 ^ 32) (len % 2 ^ 64) (map_watch_kind kind) <;> simp
  · rw [hr]
  · rw [hok]
  · cases hg : g 0 <;> simp

/-- Claim C6, witness: the amended statement at a concrete failing
`add_watchpoint` collaborator (error 9). -/
theorem C6_witness :
    (fun _ _ _ _ => (Except.error 9 : Except Nat Unit)) 0 (0 % 2 ^ 32) (4 % 2 ^ 64)
        (map_watch_kind GdbWatchKind.Read) = Except.error 9
    ∧ (raw_add_hw_watchpoint (Except.ok () : Except Nat Unit) (Except.ok ())
        (fun _ _ _ _ => (Except.error 9 : Except Nat Unit)) 0 4 GdbWatchKind.Read
        : TargetOutcome Nat Bool × List WatchCall).1 = TargetOutcome.panic :=
  ⟨rfl, (C6_amended (fun _ _ _ _ => (Except.error 9 : Except Nat Unit))
    (fun _ => Except.error 9) 0 4 GdbWatchKind.Read).1.1 9 rfl⟩

/-- Claim C7: the session-API backend's `add_hw_watchpoint` maps the
protocol watch kind 1:1 to the hardware kind, returns `Ok(true)`
exactly when the session-level `add_data_watchpoint` succeeds and
`Ok(false)` on any underlying error — discarding its detail — and never
produces a structured target error or a panic. -/
theorem C7_collapse {E T : Type} (f : Nat → Nat → WatchKind → Except E Unit)
    (addr len : Nat) (kind : GdbWatchKind) :
    ((session_add_hw_watchpoint f addr len kind
        : TargetOutcome T Bool × List WatchCall).1
      = TargetOutcome.ok (is_ok (f (addr % 2 ^ 32) (len % 2 ^ 64) (map_watch_kind kind))))
    ∧ (∀ e : E, f (addr % 2 ^ 32) (len % 2 ^ 64) (map_watch_kind kind) = .error e →
      (session_add_hw_watchpoint f addr len kind
        : TargetOutcome T Bool × List WatchCall).1 = TargetOutcome.ok false)
    ∧ (f (addr % 2 ^ 32) (len % 2 ^ 64) (map_watch_kind kind) = .ok () →
      (session_add_hw_watchpoint f addr len kind
        : TargetOutcome T Bool × List WatchCall).1 = TargetOutcome.ok true)
    ∧ (∀ e : T, (session_add_hw_watchpoint f addr len kind
        : TargetOutcome T Bool × List WatchCall).1 ≠ TargetOutcome.err e)
    ∧ (session_add_hw_watchpoint f addr len kind
        : TargetOutcome T Bool × List WatchCall).1 ≠ TargetOutcome.panic
    ∧ map_watch_kind GdbWatchKind.Read = WatchKind.Read
    ∧ map_watch_kind GdbWatchKind.Write = WatchKind.Write
    ∧ map_watch_kind GdbWatchKind.ReadWrite = WatchKind.ReadWrite := by
  unfold session_add_hw_watchpoint is_ok
  dsimp only
  refine ⟨rfl, fun e he => ?_, fun hok => ?_, fun e => ?_, ?_, rfl, rfl, rfl⟩
  · rw [he]
  · rw [hok]
  · simp
  · simp

/-- Claim C7, witness: a failing `add_data_watchpoint` (error 3) is
collapsed to `Ok(false)`. -/
theorem C7_witness :
    (fun _ _ _ => (Except.error 3 : Except Nat Unit)) (0 % 2 ^ 32) (4 % 2 ^ 64)
        (map_watch_kind GdbWatchKind.Write) = Except.error 3
    ∧ (session_add_hw_watchpoint (fun _ _ _ => (Except.error 3 : Except Nat Unit))
        0 4 GdbWatchKind.Write : TargetOutcome Nat Bool × List WatchCall).1
      = TargetOutcome.ok false :=
  ⟨rfl, (C7_collapse (fun _ _ _ => (Except.error 3 : Except Nat Unit))
    0 4 GdbWatchKind.Write).2.1 3 rfl⟩

/-- Claim C8: software breakpoints are never advertised in either
backend; hardware breakpoints are always advertised in both; hardware
watchpoints are unconditionally advertised in the raw backend, and in
the session-API backend exactly when the session's architecture is
`Arm`. -/
theorem C8_capabilities :
    raw_support_sw_breakpoint = false
    ∧ session_support_sw_breakpoint = false
    ∧ raw_support_hw_breakpoint = true
    ∧ session_support_hw_breakpoint = true
    ∧ raw_support_hw_watchpoint = true
    ∧ (∀ a : Architecture, session_support_hw_watchpoint a = true ↔ a = Architecture.Arm) := by
  refine ⟨rfl, rfl, rfl, rfl, rfl, fun a => ?_⟩
  cases a <;> simp [session_support_hw_watchpoint]

/-- Claim C9: `disable_watchpoint` leaves `Comp[unit]` and `Mask[unit]`
untouched, clears only the function field of `Function[unit]` (the bits
above the 4-bit function field, `value / 16`, are preserved), performs
a single `Function` store, succeeds, and is idempotent — a second
consecutive call also succeeds and leaves the register state exactly as
after the first. -/
theorem C9_disable_only_function (regs : DwtRegs) :
    (disable_watchpoint regs).regs.comp = regs.comp
    ∧ (disable_watchpoint regs).regs.mask = regs.mask
    ∧ get_function (disable_watchpoint regs).regs.function = 0
    ∧ (disable_watchpoint regs).regs.function / 16 = regs.function / 16
    ∧ (disable_watchpoint regs).result = Except.ok ()
    ∧ (disable_watchpoint regs).writes
        = [DwtWrite.function (set_function regs.function 0)]
    ∧ (disable_watchpoint ((disable_watchpoint regs).regs)).regs
        = (disable_watchpoint regs).regs
    ∧ (disable_watchpoint ((disable_watchpoint regs).regs)).result = Except.ok () := by
  have hdiv : set_function regs.function 0 / 16 = regs.function / 16 := by
    unfold set_function bfSet
    norm_num
    omega
  have hidem : set_function (set_function regs.function 0) 0 = set_function regs.function 0 := by
    unfold set_function bfSet
    norm_num
    omega
  refine ⟨rfl, rfl, ?_, hdiv, rfl, rfl, ?_, rfl⟩
  · show get_function (set_function regs.function 0) = 0
    rw [get_function_set_function]
  · show DwtRegs.mk regs.comp regs.mask (set_function (set_function regs.function 0) 0)
      = DwtRegs.mk regs.comp regs.mask (set_function regs.function 0)
    rw [hidem]

/-- Claim C10: both backends truncate the 64-bit protocol address to
its low 32 bits (`addr as u32`) before programming: the whole outcome
equals that of the already-truncated address, the collaborator is
invoked exactly once at `addr mod 2^32` (with `len as usize` on a
64-bit target), and the truncation itself raises no error. -/
theorem C10_truncation {E R T E2 T2 : Type}
    (f : Nat → Nat → Nat → WatchKind → Except R Unit)
    (g : Nat → Nat → WatchKind → Except E2 Unit)
    (addr len : Nat) (kind : GdbWatchKind) :
    (raw_add_hw_watchpoint (Except.ok () : Except E Unit) (Except.ok ()) f addr len kind
        : TargetOutcome T Bool × List WatchCall)
      = raw_add_hw_watchpoint (Except.ok () : Except E Unit) (Except.ok ()) f
          (addr % 2 ^ 32) len kind
    ∧ (raw_add_hw_watchpoint (Except.ok () : Except E Unit) (Except.ok ()) f addr len kind
        : TargetOutcome T Bool × List WatchCall).2
      = [WatchCall.mk (addr % 2 ^ 32) (len % 2 ^ 64) (map_watch_kind kind)]
    ∧ (session_add_hw_watchpoint g addr len kind : TargetOutcome T2 Bool × List WatchCall)
      = session_add_hw_watchpoint g (addr % 2 ^ 32) len kind
    ∧ (session_add_hw_watchpoint g addr len kind : TargetOutcome T2 Bool × List WatchCall).2
      = [WatchCall.mk (addr % 2 ^ 32) (len % 2 ^ 64) (map_watch_kind kind)]
    ∧ addr % 2 ^ 32 < 2 ^ 32 := by
  have hmm : addr % 2 ^ 32 % 2 ^ 32 = addr % 2 ^ 32 := Nat.mod_mod_of_dvd addr dvd_rfl
  refine ⟨?_, ?_, ?_, ?_, Nat.mod_lt addr (by positivity)⟩
  · unfold raw_add_hw_watchpoint
    rw [hmm]
  · unfold raw_add_hw_watchpoint
    dsimp only
    cases hf : f 0 (addr % 2 ^ 32) (len % 2 ^ 64) (map_watch_kind kind) <;> rfl
  · unfold session_add_hw_watchpoint
    rw [hmm]
  · rfl
